import Mathlib

/-!
Shallow embedding of `src/event/tablet_tool/tool.rs` of the input.rs repository:
the `TabletToolType` enumeration, the `tool_type` translation from native integer
tags, the capability accessors of the `TabletTool` wrapper, and the
reference-counted lifetime discipline of the wrapper.

The native layer (libinput, reached through the external `ffi` bindings crate) is
modelled as an explicit environment: a `libinput_tablet_tool` record holding the
results the native getters return for a given tool object.  The repository macros
`ffi_ref_struct!` and `ffi_func!` expand outside this file's source tree; their
expansions are modelled from the spec where noted.
-/

namespace Input

/-- Native tag constants of the external `libinput_tablet_tool_type` enum, as
declared by the native layer (PEN = 1, the rest consecutive). -/
def LIBINPUT_TABLET_TOOL_TYPE_PEN : Nat := 1

/-- Native tag for the eraser tool. -/
def LIBINPUT_TABLET_TOOL_TYPE_ERASER : Nat := 2

/-- Native tag for the brush tool. -/
def LIBINPUT_TABLET_TOOL_TYPE_BRUSH : Nat := 3

/-- Native tag for the pencil tool. -/
def LIBINPUT_TABLET_TOOL_TYPE_PENCIL : Nat := 4

/-- Native tag for the airbrush tool. -/
def LIBINPUT_TABLET_TOOL_TYPE_AIRBRUSH : Nat := 5

/-- Native tag for the mouse tool. -/
def LIBINPUT_TABLET_TOOL_TYPE_MOUSE : Nat := 6

/-- Native tag for the lens tool. -/
def LIBINPUT_TABLET_TOOL_TYPE_LENS : Nat := 7

/-- Native tag for the totem tool (libinput >= 1.14). -/
def LIBINPUT_TABLET_TOOL_TYPE_TOTEM : Nat := 8

/-- Available tool types for a device with the `TabletTool` capability
(`tool.rs` lines 21-41).  The `Totem` variant is compiled only under
`cfg(feature = "libinput_1_14")` in the source; availability of each variant per
configuration is modelled by `TabletToolType.available`. -/
inductive TabletToolType where
  | Pen
  | Eraser
  | Brush
  | Pencil
  | Airbrush
  | Mouse
  | Lens
  | Totem
deriving DecidableEq

/-- Which variants of `TabletToolType` exist in a given build configuration:
`Totem` carries `#[cfg(feature = "libinput_1_14")]` (`tool.rs` lines 39-40);
every other variant is unconditional. -/
def TabletToolType.available (feat114 : Bool) : TabletToolType → Bool
  | .Totem => feat114
  | _ => true

/-- The diagnostic emitted by the unknown-tag branch of `tool_type`
(`tool.rs` line 107), modelled as the rendered warning text. -/
def unknown_warning (tag : Nat) : String :=
  "Unknown TabletToolType returned by libinput: " ++ toString tag

/-- The `match` body of `TabletTool::tool_type` (`tool.rs` lines 79-110);
`feat114` models `cfg(feature = "libinput_1_14")` (the `Totem` arm is only
present when it is on) and `log` models `cfg(feature = "log")` (the warning in
the fallback arm is only emitted when it is on).  The first component is the
returned value, the second the list of warnings emitted. -/
def tool_type_match (feat114 log : Bool) (tag : Nat) :
    Option TabletToolType × List String :=
  if tag = LIBINPUT_TABLET_TOOL_TYPE_PEN then (some TabletToolType.Pen, [])
  else if tag = LIBINPUT_TABLET_TOOL_TYPE_ERASER then (some TabletToolType.Eraser, [])
  else if tag = LIBINPUT_TABLET_TOOL_TYPE_BRUSH then (some TabletToolType.Brush, [])
  else if tag = LIBINPUT_TABLET_TOOL_TYPE_PENCIL then (some TabletToolType.Pencil, [])
  else if tag = LIBINPUT_TABLET_TOOL_TYPE_AIRBRUSH then (some TabletToolType.Airbrush, [])
  else if tag = LIBINPUT_TABLET_TOOL_TYPE_MOUSE then (some TabletToolType.Mouse, [])
  else if tag = LIBINPUT_TABLET_TOOL_TYPE_LENS then (some TabletToolType.Lens, [])
  else if feat114 = true ∧ tag = LIBINPUT_TABLET_TOOL_TYPE_TOTEM then
    (some TabletToolType.Totem, [])
  else (none, if log then [unknown_warning tag] else [])

/-- The native tags the `match` of `tool_type` recognises in a given build
configuration: the seven unconditional arms, plus the totem tag when
`libinput_1_14` is on. -/
def knownTags (feat114 : Bool) : List Nat :=
  [LIBINPUT_TABLET_TOOL_TYPE_PEN, LIBINPUT_TABLET_TOOL_TYPE_ERASER,
   LIBINPUT_TABLET_TOOL_TYPE_BRUSH, LIBINPUT_TABLET_TOOL_TYPE_PENCIL,
   LIBINPUT_TABLET_TOOL_TYPE_AIRBRUSH, LIBINPUT_TABLET_TOOL_TYPE_MOUSE,
   LIBINPUT_TABLET_TOOL_TYPE_LENS] ++ (if feat114 then [LIBINPUT_TABLET_TOOL_TYPE_TOTEM] else [])

/-- The native tag each variant is produced from (the constant of its `match`
arm in `tool.rs` lines 80-104). -/
def tagOf : TabletToolType → Nat
  | .Pen => LIBINPUT_TABLET_TOOL_TYPE_PEN
  | .Eraser => LIBINPUT_TABLET_TOOL_TYPE_ERASER
  | .Brush => LIBINPUT_TABLET_TOOL_TYPE_BRUSH
  | .Pencil => LIBINPUT_TABLET_TOOL_TYPE_PENCIL
  | .Airbrush => LIBINPUT_TABLET_TOOL_TYPE_AIRBRUSH
  | .Mouse => LIBINPUT_TABLET_TOOL_TYPE_MOUSE
  | .Lens => LIBINPUT_TABLET_TOOL_TYPE_LENS
  | .Totem => LIBINPUT_TABLET_TOOL_TYPE_TOTEM

/-- One native tablet-tool object, modelled by the results its native getters
return.  The `has_*` getters of libinput return a C `int`; the `get_serial` and
`get_tool_id` getters return a `uint64_t`, modelled as `Nat` (bounds are stated
where a claim needs them). -/
structure libinput_tablet_tool where
  libinput_tablet_tool_get_serial : Nat
  libinput_tablet_tool_get_tool_id : Nat
  libinput_tablet_tool_get_type : Nat
  libinput_tablet_tool_has_button : Nat → Int
  libinput_tablet_tool_has_distance : Int
  libinput_tablet_tool_has_pressure : Int
  libinput_tablet_tool_has_rotation : Int
  libinput_tablet_tool_has_slider : Int
  libinput_tablet_tool_has_tilt : Int
  libinput_tablet_tool_has_wheel : Int
  libinput_tablet_tool_is_unique : Int
  libinput_tablet_tool_has_size : Int

namespace TabletTool

/-- Modelled from the spec: `ffi_func!(pub fn serial, ..., u64)` expands (the
macro is outside `src/`) to a direct pass-through of the native `u64` result,
"`serial() -> u64`: 0 if unsupported". -/
def serial (t : libinput_tablet_tool) : Nat :=
  t.libinput_tablet_tool_get_serial

/-- Modelled from the spec: `ffi_func!(pub fn tool_id, ..., u64)` expands (the
macro is outside `src/`) to a direct pass-through of the native `u64` result,
"`tool_id() -> u64`: 0 if unsupported". -/
def tool_id (t : libinput_tablet_tool) : Nat :=
  t.libinput_tablet_tool_get_tool_id

/-- `TabletTool::tool_type` (`tool.rs` lines 78-111): the translation `match`
applied to the native type tag of the tool. -/
def tool_type (feat114 log : Bool) (t : libinput_tablet_tool) :
    Option TabletToolType × List String :=
  tool_type_match feat114 log t.libinput_tablet_tool_get_type

/-- `TabletTool::has_button` (`tool.rs` lines 114-116): the code is passed to
the native query unmodified and the native `int` result is compared to 0. -/
def has_button (t : libinput_tablet_tool) (button : Nat) : Bool :=
  t.libinput_tablet_tool_has_button button != 0

/-- Modelled from the spec: `ffi_func!(..., bool)` (macro outside `src/`) is a
"direct boolean translation of native capability bits": native nonzero means
`true`. -/
def has_distance (t : libinput_tablet_tool) : Bool :=
  t.libinput_tablet_tool_has_distance != 0

/-- Modelled from the spec: direct boolean translation of the native
has-pressure bit. -/
def has_pressure (t : libinput_tablet_tool) : Bool :=
  t.libinput_tablet_tool_has_pressure != 0

/-- Modelled from the spec: direct boolean translation of the native
has-rotation bit. -/
def has_rotation (t : libinput_tablet_tool) : Bool :=
  t.libinput_tablet_tool_has_rotation != 0

/-- Modelled from the spec: direct boolean translation of the native
has-slider bit. -/
def has_slider (t : libinput_tablet_tool) : Bool :=
  t.libinput_tablet_tool_has_slider != 0

/-- Modelled from the spec: direct boolean translation of the native has-tilt
bit. -/
def has_tilt (t : libinput_tablet_tool) : Bool :=
  t.libinput_tablet_tool_has_tilt != 0

/-- Modelled from the spec: direct boolean translation of the native has-wheel
bit. -/
def has_wheel (t : libinput_tablet_tool) : Bool :=
  t.libinput_tablet_tool_has_wheel != 0

/-- Modelled from the spec: direct boolean translation of the native is-unique
bit. -/
def is_unique (t : libinput_tablet_tool) : Bool :=
  t.libinput_tablet_tool_is_unique != 0

/-- `TabletTool::tablet_tool_has_size` (`tool.rs` lines 145-152), compiled only
under `cfg(feature = "libinput_1_14")`: direct boolean translation of the
native has-size bit. -/
def tablet_tool_has_size (t : libinput_tablet_tool) : Bool :=
  t.libinput_tablet_tool_has_size != 0

end TabletTool

/-- State of one native tablet-tool object's reference count: `count` is the
native reference count, `frees` the number of times the native layer has freed
the object (so a correct life cycle ends with `frees = 1`). -/
structure RefState where
  count : Nat
  frees : Nat
deriving DecidableEq

/-- Modelled from the spec: `ffi_ref_struct!` (the macro is outside `src/`)
generates a `Clone` that calls `ffi::libinput_tablet_tool_ref`, "cloning
increments the reference count". -/
def libinput_tablet_tool_ref (s : RefState) : RefState :=
  { s with count := s.count + 1 }

/-- Modelled from the spec: `ffi_ref_struct!` (the macro is outside `src/`)
generates a `Drop` that calls `ffi::libinput_tablet_tool_unref`,
"dropping/releasing a wrapper decrements the reference count; when the count
reaches zero the native layer frees the object". -/
def libinput_tablet_tool_unref (s : RefState) : RefState :=
  if s.count = 1 then { count := 0, frees := s.frees + 1 }
  else { s with count := s.count - 1 }

/-- Modelled from the spec: `ffi_ref_struct!`'s `FromRaw` construction (the
macro is outside `src/`) "takes ownership of one reference (no extra
increment)" — the reference count is left exactly as the raw handle held it. -/
def from_raw (s : RefState) : RefState := s

/-- A raw handle as handed out by the native layer: it holds one native
reference and the object has not been freed. -/
def raw_handle : RefState := { count := 1, frees := 0 }

/-- `n` successive clones of a wrapper (each calls
`libinput_tablet_tool_ref`). -/
def cloneN : Nat → RefState → RefState
  | 0, s => s
  | n + 1, s => cloneN n (libinput_tablet_tool_ref s)

/-- `n` successive drops of wrappers (each calls
`libinput_tablet_tool_unref`). -/
def unrefN : Nat → RefState → RefState
  | 0, s => s
  | n + 1, s => unrefN n (libinput_tablet_tool_unref s)

/-- The reference-count state after constructing a wrapper from a fresh raw
handle and cloning it `n` times. -/
def after_clones (n : Nat) : RefState :=
  cloneN n (from_raw raw_handle)

namespace Lifetime

/-- Operations the public `TabletTool` interface offers on an existing wrapper:
cloning it, dropping it, or calling one of its accessor methods. -/
inductive Op where
  | clone
  | drop
  | access
deriving DecidableEq

/-- Aggregate state of one underlying native object and its wrappers: `live`
counts the outstanding wrapper instances, `count` the native reference count,
`freed` whether the native layer has freed the object. -/
structure St where
  live : Nat
  count : Nat
  freed : Bool
deriving DecidableEq

/-- State right after the module constructs the first wrapper from a raw
native handle (which held one reference, taken over without increment). -/
def initial : St := { live := 1, count := 1, freed := false }

/-- One step of the public interface.  Every operation is a method on an owned
wrapper instance (`&self`), so each requires a live wrapper — that is the
whole precondition the type system imposes; no step checks `freed`.  `clone`
refs the native object, `drop` unrefs it (freeing at count 1), `access` reads
it. -/
def step (s : St) : Op → Option St
  | .clone =>
      if s.live = 0 then none
      else some { live := s.live + 1, count := s.count + 1, freed := s.freed }
  | .drop =>
      if s.live = 0 then none
      else some { live := s.live - 1, count := s.count - 1,
                  freed := s.freed || decide (s.count = 1) }
  | .access =>
      if s.live = 0 then none
      else some s

/-- Run a sequence of interface operations; `none` when some operation lacked
the live wrapper the interface requires (such a program does not compile). -/
def run (s : St) : List Op → Option St
  | [] => some s
  | op :: ops =>
      match step s op with
      | none => none
      | some s2 => run s2 ops

end Lifetime

/-- The public method table of `impl TabletTool` (`tool.rs` lines 54-153):
which method names the interface exposes in a given build configuration.
`tablet_tool_has_size` is the only gated entry — it carries
`#[cfg(feature = "libinput_1_14")]` (`tool.rs` line 145). -/
def method_available (feat114 : Bool) (name : String) : Bool :=
  if name = "serial" ∨ name = "tool_id" ∨ name = "tool_type" ∨
     name = "has_button" ∨ name = "has_distance" ∨ name = "has_pressure" ∨
     name = "has_rotation" ∨ name = "has_slider" ∨ name = "has_tilt" ∨
     name = "has_wheel" ∨ name = "is_unique" then true
  else if name = "tablet_tool_has_size" then feat114
  else false

/-- A wrapper instance as generated by `ffi_ref_struct!`: it stores the raw
pointer to the native object in its `ffi` field. -/
structure TabletToolHandle where
  ffi : Nat

/-- Modelled from the spec: the `Clone` generated by `ffi_ref_struct!` (macro
outside `src/`) "returns a new wrapper sharing the same underlying object" —
the cloned wrapper stores the same raw pointer (the count effect is
`libinput_tablet_tool_ref`). -/
def clone_handle (w : TabletToolHandle) : TabletToolHandle :=
  { ffi := w.ffi }

/-- The native object a wrapper's raw pointer refers to, given the native
layer's store of tool objects. -/
def deref (heap : Nat → libinput_tablet_tool) (w : TabletToolHandle) :
    libinput_tablet_tool :=
  heap w.ffi

/-- A concrete native tool object used to instantiate theorems: an eraser-tag
tool with a serial number, no tool ID, button 5 declared, and some capability
bits set. -/
def sampleTool : libinput_tablet_tool where
  libinput_tablet_tool_get_serial := 42
  libinput_tablet_tool_get_tool_id := 0
  libinput_tablet_tool_get_type := 2
  libinput_tablet_tool_has_button := fun b => if b = 5 then 1 else 0
  libinput_tablet_tool_has_distance := 1
  libinput_tablet_tool_has_pressure := 1
  libinput_tablet_tool_has_rotation := 0
  libinput_tablet_tool_has_slider := 0
  libinput_tablet_tool_has_tilt := 1
  libinput_tablet_tool_has_wheel := 0
  libinput_tablet_tool_is_unique := 1
  libinput_tablet_tool_has_size := 1

/-- Whenever the translation `match` returns a variant, the tag was that
variant's own tag, the tag is known in that configuration, and `Totem` can
only arise with `libinput_1_14` on. -/
theorem tool_type_match_some (feat114 log : Bool) (tag : Nat) (v : TabletToolType)
    (h : (tool_type_match feat114 log tag).1 = some v) :
    tag = tagOf v ∧ tag ∈ knownTags feat114 ∧
      (v = TabletToolType.Totem → feat114 = true) := by
  unfold tool_type_match at h
  split_ifs at h with h1 h2 h3 h4 h5 h6 h7 h8
  all_goals simp only [Option.some.injEq] at h
  · subst h; subst h1; refine ⟨rfl, by cases feat114 <;> decide, by intro hv; cases hv⟩
  · subst h; subst h2; refine ⟨rfl, by cases feat114 <;> decide, by intro hv; cases hv⟩
  · subst h; subst h3; refine ⟨rfl, by cases feat114 <;> decide, by intro hv; cases hv⟩
  · subst h; subst h4; refine ⟨rfl, by cases feat114 <;> decide, by intro hv; cases hv⟩
  · subst h; subst h5; refine ⟨rfl, by cases feat114 <;> decide, by intro hv; cases hv⟩
  · subst h; subst h6; refine ⟨rfl, by cases feat114 <;> decide, by intro hv; cases hv⟩
  · subst h; subst h7; refine ⟨rfl, by cases feat114 <;> decide, by intro hv; cases hv⟩
  · obtain ⟨hf, ht⟩ := h8
    subst h; subst ht; subst hf
    exact ⟨rfl, by decide, fun _ => rfl⟩

/-- A tag the `match` does not recognise falls to the wildcard arm and yields
`None`, in every configuration. -/
theorem tool_type_match_unknown (feat114 log : Bool) (tag : Nat)
    (h : tag ∉ knownTags feat114) : (tool_type_match feat114 log tag).1 = none := by
  cases hx : (tool_type_match feat114 log tag).1 with
  | none => rfl
  | some v => exact absurd (tool_type_match_some feat114 log tag v hx).2.1 h

/-- A known tag is recognised by one of the non-wildcard arms and yields a
variant. -/
theorem tool_type_match_known (feat114 : Bool) (log : Bool) (tag : Nat)
    (h : tag ∈ knownTags feat114) :
    ∃ v : TabletToolType, (tool_type_match feat114 log tag).1 = some v := by
  cases feat114 with
  | false =>
      simp [knownTags, LIBINPUT_TABLET_TOOL_TYPE_PEN, LIBINPUT_TABLET_TOOL_TYPE_ERASER,
        LIBINPUT_TABLET_TOOL_TYPE_BRUSH, LIBINPUT_TABLET_TOOL_TYPE_PENCIL,
        LIBINPUT_TABLET_TOOL_TYPE_AIRBRUSH, LIBINPUT_TABLET_TOOL_TYPE_MOUSE,
        LIBINPUT_TABLET_TOOL_TYPE_LENS] at h
      rcases h with rfl | rfl | rfl | rfl | rfl | rfl | rfl <;> exact ⟨_, rfl⟩
  | true =>
      simp [knownTags, LIBINPUT_TABLET_TOOL_TYPE_PEN, LIBINPUT_TABLET_TOOL_TYPE_ERASER,
        LIBINPUT_TABLET_TOOL_TYPE_BRUSH, LIBINPUT_TABLET_TOOL_TYPE_PENCIL,
        LIBINPUT_TABLET_TOOL_TYPE_AIRBRUSH, LIBINPUT_TABLET_TOOL_TYPE_MOUSE,
        LIBINPUT_TABLET_TOOL_TYPE_LENS, LIBINPUT_TABLET_TOOL_TYPE_TOTEM] at h
      rcases h with rfl | rfl | rfl | rfl | rfl | rfl | rfl | rfl <;> exact ⟨_, rfl⟩

/-- The value component of the translation does not depend on the `log`
feature; only the emitted diagnostics do. -/
theorem tool_type_match_fst_log (feat114 log1 log2 : Bool) (tag : Nat) :
    (tool_type_match feat114 log1 tag).1 = (tool_type_match feat114 log2 tag).1 := by
  unfold tool_type_match
  split_ifs <;> rfl

/-- C1: the tool-type translation is total and one-to-one on the known tag
set: every known tag (totem only when `libinput_1_14` is on) yields `Some` of
a variant, the eraser tag yields `Some Eraser`, no two distinct tags yield the
same variant, every tag outside the known set yields `None` (no panic — the
translation is a total function), and in particular tag 9999 yields `None`. -/
theorem tool_type_known_total_injective :
    (∀ feat114 : Bool, ∀ tag ∈ knownTags feat114,
      ∃ v : TabletToolType, (tool_type_match feat114 false tag).1 = some v) ∧
    (tool_type_match true false LIBINPUT_TABLET_TOOL_TYPE_ERASER).1
      = some TabletToolType.Eraser ∧
    (∀ (feat114 : Bool) (t1 t2 : Nat) (v : TabletToolType),
      (tool_type_match feat114 false t1).1 = some v →
      (tool_type_match feat114 false t2).1 = some v → t1 = t2) ∧
    (∀ (feat114 : Bool) (tag : Nat), tag ∉ knownTags feat114 →
      (tool_type_match feat114 false tag).1 = none) ∧
    (∀ feat114 log : Bool, (tool_type_match feat114 log 9999).1 = none) := by
  refine ⟨fun feat114 tag h => tool_type_match_known feat114 false tag h, by decide,
    ?_, fun feat114 tag h => tool_type_match_unknown feat114 false tag h, ?_⟩
  · intro feat114 t1 t2 v h1 h2
    rw [(tool_type_match_some feat114 false t1 v h1).1,
      (tool_type_match_some feat114 false t2 v h2).1]
  · intro feat114 log
    exact tool_type_match_unknown feat114 log 9999 (by cases feat114 <;> decide)

/-- C1 witness: the theorem instantiated at the eraser tag (known) and at tag
9999 (unknown). -/
theorem tool_type_known_total_injective_witness :
    (∃ v : TabletToolType,
      (tool_type_match true false LIBINPUT_TABLET_TOOL_TYPE_ERASER).1 = some v) ∧
    (tool_type_match true false 9999).1 = none ∧
    (tool_type_match false true 9999).1 = none :=
  ⟨tool_type_known_total_injective.1 true LIBINPUT_TABLET_TOOL_TYPE_ERASER (by decide),
   tool_type_known_total_injective.2.2.2.1 true 9999 (by decide),
   tool_type_known_total_injective.2.2.2.2 false true⟩

/-- C9: with `libinput_1_14` off the `Totem` variant does not exist (its cfg
gate is closed), the totem tag falls through to the unknown-tag fallback and
yields `None`, and no tag at all can yield `Some Totem`; with the feature on
the totem tag yields `Some Totem`. -/
theorem totem_feature_gated :
    TabletToolType.available false TabletToolType.Totem = false ∧
    (∀ v : TabletToolType, v ≠ TabletToolType.Totem →
      TabletToolType.available false v = true) ∧
    (∀ log : Bool,
      (tool_type_match false log LIBINPUT_TABLET_TOOL_TYPE_TOTEM).1 = none) ∧
    (∀ (log : Bool) (tag : Nat),
      (tool_type_match false log tag).1 ≠ some TabletToolType.Totem) ∧
    (∀ log : Bool,
      (tool_type_match true log LIBINPUT_TABLET_TOOL_TYPE_TOTEM).1
        = some TabletToolType.Totem) := by
  refine ⟨rfl, ?_, ?_, ?_, ?_⟩
  · intro v hv
    cases v <;> first | rfl | exact absurd rfl hv
  · intro log
    exact tool_type_match_unknown false log LIBINPUT_TABLET_TOOL_TYPE_TOTEM (by decide)
  · intro log tag h
    have := (tool_type_match_some false log tag TabletToolType.Totem h).2.2 rfl
    cases this
  · intro log
    cases log <;> decide

/-- C9 witness: the theorem instantiated with the `log` feature on and at the
totem tag. -/
theorem totem_feature_gated_witness :
    TabletToolType.available false TabletToolType.Pen = true ∧
    (tool_type_match false true LIBINPUT_TABLET_TOOL_TYPE_TOTEM).1 = none ∧
    (tool_type_match false true LIBINPUT_TABLET_TOOL_TYPE_TOTEM).1
      ≠ some TabletToolType.Totem ∧
    (tool_type_match true true LIBINPUT_TABLET_TOOL_TYPE_TOTEM).1
      = some TabletToolType.Totem :=
  ⟨totem_feature_gated.2.1 TabletToolType.Pen (by decide),
   totem_feature_gated.2.2.1 true,
   totem_feature_gated.2.2.2.1 true LIBINPUT_TABLET_TOOL_TYPE_TOTEM,
   totem_feature_gated.2.2.2.2 true⟩

/-- C10: for every native tag the returned `Option` value of the translation
is identical whether or not the `log` feature is compiled in; in the
unknown-tag branch it is `None` in both configurations. -/
theorem tool_type_log_independent :
    ∀ (feat114 log1 log2 : Bool) (tag : Nat),
      (tool_type_match feat114 log1 tag).1 = (tool_type_match feat114 log2 tag).1 ∧
      (tag ∉ knownTags feat114 →
        (tool_type_match feat114 true tag).1 = none ∧
        (tool_type_match feat114 false tag).1 = none) :=
  fun feat114 log1 log2 tag =>
    ⟨tool_type_match_fst_log feat114 log1 log2 tag,
     fun h => ⟨tool_type_match_unknown feat114 true tag h,
       tool_type_match_unknown feat114 false tag h⟩⟩

/-- C10 witness: the theorem instantiated at tag 9999 with both settings of
the `log` feature. -/
theorem tool_type_log_independent_witness :
    (tool_type_match true true 9999).1 = (tool_type_match true false 9999).1 ∧
    (tool_type_match true true 9999).1 = none ∧
    (tool_type_match true false 9999).1 = none :=
  ⟨(tool_type_log_independent true true false 9999).1,
   (tool_type_log_independent true true false 9999).2 (by decide)⟩

/-- `n` clones add `n` to the reference count and free nothing. -/
theorem cloneN_eq (n : Nat) : ∀ c f : Nat, cloneN n ⟨c, f⟩ = ⟨c + n, f⟩ := by
  induction n with
  | zero => intro c f; rfl
  | succ n ih =>
      intro c f
      have h1 : cloneN (n + 1) ⟨c, f⟩ = cloneN n ⟨c + 1, f⟩ := rfl
      rw [h1, ih]
      congr 1
      omega

/-- Fewer unrefs than the count leaves a positive count and frees nothing. -/
theorem unrefN_lt (k : Nat) : ∀ c f : Nat, k < c → unrefN k ⟨c, f⟩ = ⟨c - k, f⟩ := by
  induction k with
  | zero => intro c f _; simp [unrefN]
  | succ k ih =>
      intro c f h
      have h1 : unrefN (k + 1) ⟨c, f⟩ = unrefN k (libinput_tablet_tool_unref ⟨c, f⟩) := rfl
      have h2 : libinput_tablet_tool_unref ⟨c, f⟩ = ⟨c - 1, f⟩ := by
        rw [libinput_tablet_tool_unref]
        split_ifs with hc
        · exact absurd (show c = 1 from hc) (by omega)
        · rfl
      rw [h1, h2, ih (c - 1) f (by omega)]
      congr 1
      omega

/-- Unrefing exactly the whole count frees the object exactly once. -/
theorem unrefN_exact : ∀ c f : Nat, unrefN (c + 1) ⟨c + 1, f⟩ = ⟨0, f + 1⟩ := by
  intro c
  induction c with
  | zero => intro f; rfl
  | succ c ih =>
      intro f
      have h1 : unrefN (c + 2) ⟨c + 2, f⟩
          = unrefN (c + 1) (libinput_tablet_tool_unref ⟨c + 2, f⟩) := rfl
      have h2 : libinput_tablet_tool_unref ⟨c + 2, f⟩ = ⟨c + 1, f⟩ := by
        rw [libinput_tablet_tool_unref]
        split_ifs with hc
        · exact absurd (show c + 2 = 1 from hc) (by omega)
        · rfl
      rw [h1, h2, ih]

/-- C2: constructing a wrapper from a raw handle and cloning it `N` times
leaves the native count at `N + 1` with no free; dropping wrappers `k ≤ N`
times frees nothing and leaves a positive count, while dropping all `N + 1`
wrappers drives the count to zero and causes exactly one native free — which
therefore happens only at the last drop. -/
theorem refcount_balance :
    ∀ N : Nat,
      (after_clones N).count = N + 1 ∧ (after_clones N).frees = 0 ∧
      (∀ k : Nat, k ≤ N →
        (unrefN k (after_clones N)).frees = 0 ∧
        0 < (unrefN k (after_clones N)).count) ∧
      (unrefN (N + 1) (after_clones N)).frees = 1 ∧
      (unrefN (N + 1) (after_clones N)).count = 0 := by
  intro N
  have hac : after_clones N = ⟨N + 1, 0⟩ := by
    show cloneN N ⟨1, 0⟩ = ⟨N + 1, 0⟩
    rw [cloneN_eq]
    congr 1
    omega
  refine ⟨by rw [hac], by rw [hac], ?_, ?_, ?_⟩
  · intro k hk
    rw [hac, unrefN_lt k (N + 1) 0 (by omega)]
    exact ⟨rfl, by simp; omega⟩
  · rw [hac, unrefN_exact]
  · rw [hac, unrefN_exact]

/-- C2 witness: the theorem at `N = 2`, with the partial-drop part at
`k = 2`. -/
theorem refcount_balance_witness :
    (after_clones 2).count = 3 ∧
    (unrefN 2 (after_clones 2)).frees = 0 ∧
    0 < (unrefN 2 (after_clones 2)).count ∧
    (unrefN 3 (after_clones 2)).frees = 1 ∧
    (unrefN 3 (after_clones 2)).count = 0 :=
  ⟨(refcount_balance 2).1,
   ((refcount_balance 2).2.2.1 2 (by decide)).1,
   ((refcount_balance 2).2.2.1 2 (by decide)).2,
   (refcount_balance 2).2.2.2.1,
   (refcount_balance 2).2.2.2.2⟩

/-- C3: construction from a raw handle takes over the reference the handle
already held — the native count and free tally are left untouched — whereas a
clone increments the count by one. -/
theorem from_raw_no_increment :
    ∀ s : RefState,
      (from_raw s).count = s.count ∧ (from_raw s).frees = s.frees ∧
      (libinput_tablet_tool_ref s).count = s.count + 1 :=
  fun _ => ⟨rfl, rfl, rfl⟩

/-- C4: `serial` and `tool_id` return exactly the native 64-bit values — zero
precisely when the native layer reports zero (unreported serial / unsupported
tool ID), nonzero otherwise — they stay within 64 bits whenever the native
value does, and repeated calls on the same handle agree. -/
theorem serial_tool_id_passthrough :
    ∀ t : libinput_tablet_tool,
      TabletTool.serial t = t.libinput_tablet_tool_get_serial ∧
      TabletTool.tool_id t = t.libinput_tablet_tool_get_tool_id ∧
      (TabletTool.serial t = 0 ↔ t.libinput_tablet_tool_get_serial = 0) ∧
      (TabletTool.tool_id t = 0 ↔ t.libinput_tablet_tool_get_tool_id = 0) ∧
      TabletTool.serial t = TabletTool.serial t ∧
      TabletTool.tool_id t = TabletTool.tool_id t ∧
      (t.libinput_tablet_tool_get_serial < 2 ^ 64 → TabletTool.serial t < 2 ^ 64) ∧
      (t.libinput_tablet_tool_get_tool_id < 2 ^ 64 → TabletTool.tool_id t < 2 ^ 64) :=
  fun _ => ⟨rfl, rfl, Iff.rfl, Iff.rfl, rfl, rfl, id, id⟩

/-- C4 witness: the theorem at the sample tool (nonzero serial, zero tool
ID). -/
theorem serial_tool_id_passthrough_witness :
    TabletTool.serial sampleTool = sampleTool.libinput_tablet_tool_get_serial ∧
    (TabletTool.tool_id sampleTool = 0 ↔
      sampleTool.libinput_tablet_tool_get_tool_id = 0) ∧
    TabletTool.serial sampleTool < 2 ^ 64 :=
  ⟨(serial_tool_id_passthrough sampleTool).1,
   (serial_tool_id_passthrough sampleTool).2.2.2.1,
   (serial_tool_id_passthrough sampleTool).2.2.2.2.2.2.1 (by norm_num [sampleTool])⟩

/-- C5: `has_button` passes every code to the native query unmodified — the
statement quantifies over all codes with no range restriction — and returns
`true` exactly when the native result is nonzero. -/
theorem has_button_passthrough :
    ∀ (t : libinput_tablet_tool) (button : Nat),
      TabletTool.has_button t button
        = (t.libinput_tablet_tool_has_button button != 0) ∧
      (TabletTool.has_button t button = true ↔
        t.libinput_tablet_tool_has_button button ≠ 0) := by
  intro t button
  refine ⟨rfl, ?_⟩
  simp [TabletTool.has_button]

/-- C5 witness: the theorem at the sample tool, at a declared code and via the
nonzero native result. -/
theorem has_button_passthrough_witness :
    TabletTool.has_button sampleTool 5
      = (sampleTool.libinput_tablet_tool_has_button 5 != 0) ∧
    TabletTool.has_button sampleTool 5 = true :=
  ⟨(has_button_passthrough sampleTool 5).1,
   (has_button_passthrough sampleTool 5).2.mpr (by decide)⟩

/-- C6: the accessors are pure reads — a wrapper cloned from the same raw
pointer refers to the same underlying native object, so the two wrappers
report identical `serial`, `tool_id` and capability values for every button
code, and calling an accessor twice on the same live wrapper yields the same
result both times. -/
theorem accessors_pure_clone_consistent :
    ∀ (heap : Nat → libinput_tablet_tool) (w : TabletToolHandle),
      deref heap (clone_handle w) = deref heap w ∧
      TabletTool.serial (deref heap (clone_handle w))
        = TabletTool.serial (deref heap w) ∧
      TabletTool.tool_id (deref heap (clone_handle w))
        = TabletTool.tool_id (deref heap w) ∧
      (∀ b : Nat, TabletTool.has_button (deref heap (clone_handle w)) b
        = TabletTool.has_button (deref heap w) b) ∧
      TabletTool.has_distance (deref heap (clone_handle w))
        = TabletTool.has_distance (deref heap w) ∧
      TabletTool.has_pressure (deref heap (clone_handle w))
        = TabletTool.has_pressure (deref heap w) ∧
      TabletTool.has_rotation (deref heap (clone_handle w))
        = TabletTool.has_rotation (deref heap w) ∧
      TabletTool.has_slider (deref heap (clone_handle w))
        = TabletTool.has_slider (deref heap w) ∧
      TabletTool.has_tilt (deref heap (clone_handle w))
        = TabletTool.has_tilt (deref heap w) ∧
      TabletTool.has_wheel (deref heap (clone_handle w))
        = TabletTool.has_wheel (deref heap w) ∧
      TabletTool.is_unique (deref heap (clone_handle w))
        = TabletTool.is_unique (deref heap w) ∧
      TabletTool.has_pressure (deref heap w) = TabletTool.has_pressure (deref heap w) ∧
      TabletTool.serial (deref heap w) = TabletTool.serial (deref heap w) :=
  fun _ _ =>
    ⟨rfl, rfl, rfl, fun _ => rfl, rfl, rfl, rfl, rfl, rfl, rfl, rfl, rfl, rfl⟩

namespace Lifetime

/-- The lifetime invariant of one underlying object: the native count equals
the number of outstanding wrappers, and the object is freed exactly when no
wrapper is left. -/
def inv (s : St) : Prop :=
  s.count = s.live ∧ s.freed = decide (s.live = 0)

/-- Each public-interface step preserves the lifetime invariant. -/
theorem step_preserves_inv (s s2 : St) (op : Op) (h0 : inv s)
    (h : step s op = some s2) : inv s2 := by
  obtain ⟨hc, hf⟩ := h0
  cases op with
  | clone =>
      unfold step at h
      split_ifs at h with hl
      cases h
      constructor
      · show s.count + 1 = s.live + 1
        omega
      · show s.freed = decide (s.live + 1 = 0)
        rw [hf]
        simp [hl]
  | drop =>
      unfold step at h
      split_ifs at h with hl
      cases h
      constructor
      · show s.count - 1 = s.live - 1
        omega
      · show (s.freed || decide (s.count = 1)) = decide (s.live - 1 = 0)
        rw [hf, hc]
        by_cases h1 : s.live = 1
        · simp [h1]
        · have h2 : ¬s.live - 1 = 0 := by omega
          simp [h1, hl, h2]
  | access =>
      unfold step at h
      split_ifs at h with hl
      cases h
      exact ⟨hc, hf⟩

/-- Running any well-formed operation sequence preserves the lifetime
invariant. -/
theorem run_preserves_inv :
    ∀ (ops : List Op) (s0 s : St), inv s0 → run s0 ops = some s → inv s := by
  intro ops
  induction ops with
  | nil =>
      intro s0 s h0 hr
      cases hr
      exact h0
  | cons op ops ih =>
      intro s0 s h0 hr
      unfold run at hr
      cases hstep : step s0 op with
      | none => rw [hstep] at hr; cases hr
      | some s1 =>
          rw [hstep] at hr
          exact ih s1 s (step_preserves_inv s0 s1 op h0 hstep) hr

/-- Unfolding equation of `run` on a nonempty program. -/
theorem run_cons (s0 : St) (op : Op) (ops : List Op) :
    run s0 (op :: ops) =
      match step s0 op with
      | none => none
      | some s1 => run s1 ops := rfl

/-- A run that succeeds on a prefix continues from the state the prefix
reached. -/
theorem run_append_some :
    ∀ (l1 : List Op) (s0 s : St), run s0 l1 = some s →
      ∀ l2 : List Op, run s0 (l1 ++ l2) = run s l2 := by
  intro l1
  induction l1 with
  | nil =>
      intro s0 s h l2
      cases h
      rfl
  | cons op l1 ih =>
      intro s0 s h l2
      rw [List.cons_append, run_cons]
      rw [run_cons] at h
      cases hstep : step s0 op with
      | none =>
          rw [hstep] at h
          exact Option.noConfusion h
      | some s1 =>
          rw [hstep] at h
          exact ih s1 s h l2

end Lifetime

/-- C7: use after release is structurally unreachable.  Every program the
public interface admits is a sequence of clone/drop/access operations each
requiring a live, owned wrapper; in every state such a program can reach, the
native count tracks the live wrappers and the object is freed only once none
remain — so whenever one more accessor call is possible through the interface,
the underlying object is not freed. -/
theorem no_use_after_free :
    ∀ (ops : List Lifetime.Op) (s : Lifetime.St),
      Lifetime.run Lifetime.initial ops = some s →
      s.count = s.live ∧ s.freed = decide (s.live = 0) ∧
      (Lifetime.run Lifetime.initial (ops ++ [Lifetime.Op.access]) ≠ none →
        s.freed = false) := by
  intro ops s hr
  have hinv := Lifetime.run_preserves_inv ops Lifetime.initial s ⟨rfl, rfl⟩ hr
  refine ⟨hinv.1, hinv.2, ?_⟩
  intro hacc
  rw [Lifetime.run_append_some ops Lifetime.initial s hr [Lifetime.Op.access]] at hacc
  by_cases hl : s.live = 0
  · exfalso
    apply hacc
    show Lifetime.run s [Lifetime.Op.access] = none
    unfold Lifetime.run Lifetime.step
    simp [hl]
  · rw [hinv.2]
    simp [hl]

/-- C7 witness: the theorem at the concrete program clone, access, drop — its
reached state still holds the original wrapper live and unfreed. -/
theorem no_use_after_free_witness :
    (Lifetime.St.mk 1 1 false).count = (Lifetime.St.mk 1 1 false).live ∧
    (Lifetime.St.mk 1 1 false).freed = decide ((Lifetime.St.mk 1 1 false).live = 0) ∧
    (Lifetime.run Lifetime.initial
        ([Lifetime.Op.clone, Lifetime.Op.access, Lifetime.Op.drop]
          ++ [Lifetime.Op.access]) ≠ none →
      (Lifetime.St.mk 1 1 false).freed = false) :=
  no_use_after_free [Lifetime.Op.clone, Lifetime.Op.access, Lifetime.Op.drop]
    (Lifetime.St.mk 1 1 false) (by decide)

/-- C8 counterexample: the interface exposes no method named `has_size` in
either configuration — the has-size accessor is named `tablet_tool_has_size` —
and even that method is absent when `libinput_1_14` is off, unlike the
ungated `has_distance` and `is_unique`; so the has-size accessor is not on the
same footing as the other capability accessors and not available to every
caller. -/
theorem has_size_claim_counterexample :
    method_available false "has_size" = false ∧
    method_available true "has_size" = false ∧
    method_available false "tablet_tool_has_size" = false ∧
    method_available false "has_distance" = true ∧
    method_available false "is_unique" = true := by
  refine ⟨?_, ?_, ?_, ?_, ?_⟩ <;> rfl

/-- C8 (amended): only with the `libinput_1_14` feature enabled does the
wrapper expose a has-size accessor, named `tablet_tool_has_size`, and that
accessor is a direct boolean translation of the native has-size capability
bit (`true` exactly when the native result is nonzero); without the feature
the method is absent, while `has_distance` is available unconditionally. -/
theorem tablet_tool_has_size_gated :
    method_available true "tablet_tool_has_size" = true ∧
    method_available false "tablet_tool_has_size" = false ∧
    (∀ feat114 : Bool, method_available feat114 "has_distance" = true) ∧
    (∀ t : libinput_tablet_tool,
      TabletTool.tablet_tool_has_size t = (t.libinput_tablet_tool_has_size != 0) ∧
      (TabletTool.tablet_tool_has_size t = true ↔
        t.libinput_tablet_tool_has_size ≠ 0)) := by
  refine ⟨rfl, rfl, ?_, ?_⟩
  · intro f
    cases f <;> rfl
  · intro t
    exact ⟨rfl, by simp [TabletTool.tablet_tool_has_size]⟩

/-- C8 witness: the amended theorem at the sample tool (native has-size bit
set) and at a concrete configuration. -/
theorem tablet_tool_has_size_gated_witness :
    method_available true "has_distance" = true ∧
    TabletTool.tablet_tool_has_size sampleTool = true :=
  ⟨tablet_tool_has_size_gated.2.2.1 true,
   (tablet_tool_has_size_gated.2.2.2 sampleTool).2.mpr (by decide)⟩

end Input
